import Mathlib

/-!
Shallow embedding of the auth_service credential/token issuance engine
(`internal/services/auth/auth.go`), its gRPC transport adapter
(`serverAPI`), and the MongoDB-backed identifier conventions it relies on.

The engine is parametric over its collaborators (user store, app registry,
password hasher, token issuer), mirroring the Go interfaces `UserSaver`,
`UserProvider` and `AppProvider`.  Each operation additionally returns a
trace of the collaborator calls it performed, so that claims about call
order, reads-only behaviour and "the issuer is only invoked after the app
resolves" can be stated and proved.
-/

/-- Error values.  Go sentinel errors (`errors.New`) from the `auth` and
`storage` packages become distinct constructors; `fmt.Errorf("%s: %w", op, err)`
becomes `wrapped op err`; any other error is `other msg`. -/
inductive Err where
  | errInvalidCredentials
  | errInvalidAppID
  | errUserExists
  | errStorageUserNotFound
  | errStorageUserExists
  | errStorageAppNotFound
  | other (msg : String)
  | wrapped (op : String) (e : Err)
deriving DecidableEq, Repr

/-- Go `errors.Is`: compare against the target, unwrapping `%w` chains. -/
def Err.is (e t : Err) : Bool :=
  match e with
  | .wrapped op inner => decide (Err.wrapped op inner = t) || Err.is inner t
  | x => decide (x = t)

/-- MongoDB ObjectID: a 12-byte identifier, modelled as its byte list. -/
abbrev ObjectID := List Nat

/-- `primitive.NilObjectID`: the all-zero sentinel ObjectID. -/
def NilObjectID : ObjectID := List.replicate 12 0

/-- Modelled from the spec: `models.User` is not under `src/`; the spec's
data model gives a user an identifier, a unique email and a password hash
(an opaque byte sequence). -/
structure User where
  id : ObjectID
  email : String
  passHash : List Nat
deriving DecidableEq, Repr

/-- Modelled from the spec: `models.App` is not under `src/`; the spec's
data model gives an app an integer identifier, a signing secret and a
display name. -/
structure App where
  id : Int
  name : String
  secret : String
deriving DecidableEq, Repr

/-- One collaborator call made by the engine.  `readUserByEmail`, `readApp`
and `readIsAdmin` are store reads (Mongo `FindOne`), `writeSaveUser` is the
single store write (Mongo `InsertOne`), `verifyPassword` is the bcrypt
comparison and `issueToken` is the invocation of `jwt.NewToken`. -/
inductive Effect where
  | readUserByEmail (email : String)
  | verifyPassword (hash : List Nat) (password : String)
  | readApp (appID : Int)
  | issueToken (user : User) (app : App)
  | writeSaveUser (email : String) (hash : List Nat)
  | readIsAdmin (userID : ObjectID)
deriving DecidableEq, Repr

/-- Store writes, as opposed to reads and pure computations. -/
def Effect.isWrite : Effect → Bool
  | .writeSaveUser _ _ => true
  | _ => false

/-- The `Auth` service struct: its collaborator interfaces
(`UserSaver.SaveUser`, `UserProvider.UserByEmail`, `UserProvider.IsAdmin`,
`AppProvider.App`) as functions, plus the configured token TTL.
The logger is not modelled. -/
structure Auth where
  saveUser : String → List Nat → Except Err ObjectID
  userByEmail : String → Except Err User
  isAdminStore : ObjectID → Except Err Bool
  appProvider : Int → Except Err App
  tokenTTL : Nat

/-- Result of `Auth.Login`: the Go pair `(token string, err error)`
(token is `""` in every error branch), plus the ghost trace. -/
structure LoginResult where
  token : String
  err : Option Err
  trace : List Effect
deriving DecidableEq, Repr

/-- `Auth.Login` from `auth.go`.  `verify hash password` models
`bcrypt.CompareHashAndPassword(hash, []byte(password)) == nil`;
`newToken user app ttl` models `jwt.NewToken(user, app, a.tokenTTL)`. -/
def Auth.Login (a : Auth) (verify : List Nat → String → Bool)
    (newToken : User → App → Nat → Except Err String)
    (email password : String) (appID : Int) : LoginResult :=
  match a.userByEmail email with
  | .error e =>
    if e.is .errStorageUserNotFound then
      ⟨"", some (.wrapped "Auth.Login" .errInvalidCredentials),
        [.readUserByEmail email]⟩
    else
      ⟨"", some (.wrapped "Auth.Login" e), [.readUserByEmail email]⟩
  | .ok user =>
    if verify user.passHash password then
      match a.appProvider appID with
      | .error e =>
        ⟨"", some (.wrapped "Auth.Login" e),
          [.readUserByEmail email, .verifyPassword user.passHash password,
           .readApp appID]⟩
      | .ok app =>
        match newToken user app a.tokenTTL with
        | .error e =>
          ⟨"", some (.wrapped "Auth.Login" e),
            [.readUserByEmail email, .verifyPassword user.passHash password,
             .readApp appID, .issueToken user app]⟩
        | .ok token =>
          ⟨token, none,
            [.readUserByEmail email, .verifyPassword user.passHash password,
             .readApp appID, .issueToken user app]⟩
    else
      ⟨"", some (.wrapped "Auth.Login" .errInvalidCredentials),
        [.readUserByEmail email, .verifyPassword user.passHash password]⟩

/-- Result of `Auth.RegisterNewUser`: the Go pair
`(primitive.ObjectID, error)` plus the ghost trace. -/
structure RegisterResult where
  id : ObjectID
  err : Option Err
  trace : List Effect
deriving DecidableEq, Repr

/-- `Auth.RegisterNewUser` from `auth.go`.  `genHash pass` models
`bcrypt.GenerateFromPassword([]byte(pass), bcrypt.DefaultCost)`. -/
def Auth.RegisterNewUser (a : Auth)
    (genHash : String → Except Err (List Nat))
    (email pass : String) : RegisterResult :=
  match genHash pass with
  | .error e =>
    ⟨NilObjectID, some (.wrapped "auth.RegisterNewUser" e), []⟩
  | .ok passHash =>
    match a.saveUser email passHash with
    | .error e =>
      if e.is .errStorageUserExists then
        ⟨NilObjectID, some (.wrapped "auth.RegisterNewUser" .errUserExists),
          [.writeSaveUser email passHash]⟩
      else
        ⟨NilObjectID, some (.wrapped "auth.RegisterNewUser" e),
          [.writeSaveUser email passHash]⟩
    | .ok id =>
      ⟨id, none, [.writeSaveUser email passHash]⟩

/-- Result of `Auth.IsAdmin`: the Go pair `(bool, error)` plus the trace. -/
structure IsAdminResult where
  isAdmin : Bool
  err : Option Err
  trace : List Effect
deriving DecidableEq, Repr

/-- `Auth.IsAdmin` from `auth.go`: every store failure is mapped to a
wrapped `ErrInvalidAppID` (the `errors.Is(err, storage.ErrAppNotFound)`
test only selects a log line). -/
def Auth.IsAdmin (a : Auth) (userID : ObjectID) : IsAdminResult :=
  match a.isAdminStore userID with
  | .error _ =>
    ⟨false, some (.wrapped "auth.IsAdmin" .errInvalidAppID),
      [.readIsAdmin userID]⟩
  | .ok b => ⟨b, none, [.readIsAdmin userID]⟩

/-- Lower-case hexadecimal digit for a value below 16 (Go `encoding/hex`). -/
def hexDigit (n : Nat) : Char :=
  if n < 10 then Char.ofNat (48 + n) else Char.ofNat (97 + n - 10)

/-- Two-digit lower-case hexadecimal encoding of one byte. -/
def byteToHex (b : Nat) : String :=
  String.mk [hexDigit (b / 16 % 16), hexDigit (b % 16)]

/-- `primitive.ObjectID.Hex()`: `hex.EncodeToString` of the 12 bytes. -/
def ObjectID.Hex (id : ObjectID) : String :=
  String.join (id.map byteToHex)

/-- Value of one hexadecimal character, accepting `0-9`, `a-f` and `A-F`
as Go `encoding/hex` does; `none` on any other character. -/
def hexCharVal (c : Char) : Option Nat :=
  if 48 ≤ c.toNat ∧ c.toNat ≤ 57 then some (c.toNat - 48)
  else if 97 ≤ c.toNat ∧ c.toNat ≤ 102 then some (c.toNat - 97 + 10)
  else if 65 ≤ c.toNat ∧ c.toNat ≤ 70 then some (c.toNat - 65 + 10)
  else none

/-- Go `hex.DecodeString` on a character list: pairs of hex digits become
bytes; an odd length or a non-hex character fails. -/
def hexDecode : List Char → Option (List Nat)
  | [] => some []
  | [_] => none
  | c1 :: c2 :: rest => do
    let hi ← hexCharVal c1
    let lo ← hexCharVal c2
    let tail ← hexDecode rest
    pure ((hi * 16 + lo) :: tail)

/-- `primitive.ObjectIDFromHex`: a 24-character hex string decodes to the
12-byte ObjectID; anything else is an error (`none`). -/
def ObjectIDFromHex (s : String) : Option ObjectID :=
  if s.length = 24 then hexDecode s.data else none

/-- gRPC status codes used by the transport adapter. -/
inductive GrpcCode where
  | invalidArgument
  | alreadyExists
  | internal
deriving DecidableEq, Repr

/-- A `status.Error(code, msg)` value. -/
structure GrpcErr where
  code : GrpcCode
  msg : String
deriving DecidableEq, Repr

/-- The `emptyValue` sentinel of the transport adapter. -/
def emptyValue : Int := 0

/-- `serverAPI.Login` from the gRPC transport adapter: field presence
checks, then the engine call, then error-kind to status-code mapping.
The returned trace is the engine call's trace (`[]` when the request is
rejected before the engine is invoked). -/
def serverAPI.Login (a : Auth) (verify : List Nat → String → Bool)
    (newToken : User → App → Nat → Except Err String)
    (email password : String) (appId : Int) :
    Except GrpcErr String × List Effect :=
  if email = "" then
    (.error ⟨.invalidArgument, "email is required"⟩, [])
  else if password = "" then
    (.error ⟨.invalidArgument, "password is required"⟩, [])
  else if appId = emptyValue then
    (.error ⟨.invalidArgument, "app_id is required"⟩, [])
  else
    let r := Auth.Login a verify newToken email password appId
    match r.err with
    | some e =>
      if e.is .errInvalidCredentials then
        (.error ⟨.invalidArgument, "invalid argument"⟩, r.trace)
      else
        (.error ⟨.internal, "internal error"⟩, r.trace)
    | none => (.ok r.token, r.trace)

/-- `serverAPI.Register` from the transport adapter. -/
def serverAPI.Register (a : Auth) (genHash : String → Except Err (List Nat))
    (email password : String) : Except GrpcErr String × List Effect :=
  if email = "" then
    (.error ⟨.invalidArgument, "email is required"⟩, [])
  else if password = "" then
    (.error ⟨.invalidArgument, "password is required"⟩, [])
  else
    let r := Auth.RegisterNewUser a genHash email password
    match r.err with
    | some e =>
      if e.is .errUserExists then
        (.error ⟨.alreadyExists, "user already exists"⟩, r.trace)
      else
        (.error ⟨.internal, "internal error"⟩, r.trace)
    | none => (.ok (ObjectID.Hex r.id), r.trace)

/-- `serverAPI.IsAdmin` from the transport adapter: rejects the nil
ObjectID hex and malformed hex strings before invoking the engine. -/
def serverAPI.IsAdmin (a : Auth) (userId : String) :
    Except GrpcErr Bool × List Effect :=
  if userId = ObjectID.Hex NilObjectID then
    (.error ⟨.invalidArgument, "user_id is required"⟩, [])
  else
    match ObjectIDFromHex userId with
    | none => (.error ⟨.invalidArgument, "invalid user_id"⟩, [])
    | some uid =>
      let r := Auth.IsAdmin a uid
      match r.err with
      | some _ => (.error ⟨.internal, "internal error"⟩, r.trace)
      | none => (.ok r.isAdmin, r.trace)

/-- A concrete registered user, for witnesses. -/
def demoUser : User := ⟨[1, 2, 3, 4, 5, 6, 7, 8, 9, 10, 11, 12], "a@x.com", [7, 7, 7]⟩

/-- A concrete app registered under appID 0, for witnesses. -/
def demoApp : App := ⟨0, "zeroapp", "s3cr3t"⟩

/-- A concrete app registered under appID 42, for witnesses. -/
def demoApp42 : App := ⟨42, "mainapp", "k3y"⟩

/-- A concrete collaborator assembly: one stored user `a@x.com`, apps 0
and 42 in the registry, every other lookup failing with the storage
sentinel errors wrapped the way `storage/mongodb` wraps them. -/
def demoAuth : Auth where
  saveUser := fun em _ =>
    if em = "a@x.com" then
      .error (.wrapped "storage.mongodb.SaveUser" .errStorageUserExists)
    else .ok [0, 0, 0, 0, 0, 0, 0, 0, 0, 0, 0, 1]
  userByEmail := fun em =>
    if em = "a@x.com" then .ok demoUser
    else .error (.wrapped "storage.mongodb.User" .errStorageUserNotFound)
  isAdminStore := fun uid =>
    if uid = demoUser.id then .ok false
    else .error (.wrapped "storage.mongodb.IsAdmin" .errStorageUserNotFound)
  appProvider := fun i =>
    if i = 0 then .ok demoApp
    else if i = 42 then .ok demoApp42
    else .error (.wrapped "storage.mongodb.App" .errStorageAppNotFound)
  tokenTTL := 3600

/-- A concrete bcrypt verify: `demoUser`'s stored hash matches exactly the
password `secret1`. -/
def demoVerify : List Nat → String → Bool :=
  fun h p => h == [7, 7, 7] && p == "secret1"

/-- A concrete token issuer that always succeeds with token `tok`. -/
def demoNewToken : User → App → Nat → Except Err String :=
  fun _ _ _ => .ok "tok"

/-- A concrete hasher that always produces `demoUser`'s stored hash. -/
def demoGenHash : String → Except Err (List Nat) :=
  fun _ => .ok [7, 7, 7]

/-- An `errors.Is` chain whose sentinel is `storage.ErrAppNotFound` never
also matches `auth.ErrInvalidCredentials`: a `%w` chain ends in exactly one
sentinel. -/
theorem err_is_appNotFound_not_invalidCredentials (e : Err)
    (h : e.is .errStorageAppNotFound = true) :
    e.is .errInvalidCredentials = false := by
  induction e <;> simp_all [Err.is]

/-- C1: a Login failing because the email is not in the store and a Login
failing because the password does not match the stored hash return the
identical wrapped `ErrInvalidCredentials` error, indistinguishable to the
caller. -/
theorem login_unknown_email_and_wrong_password_same_error
    (a a' : Auth) (v v' : List Nat → String → Bool)
    (nt nt' : User → App → Nat → Except Err String)
    (em p em' p' : String) (aid aid' : Int) (se : Err) (u : User)
    (h1 : a.userByEmail em = .error se)
    (h2 : se.is .errStorageUserNotFound = true)
    (h3 : a'.userByEmail em' = .ok u)
    (h4 : v' u.passHash p' = false) :
    (Auth.Login a v nt em p aid).err
      = some (.wrapped "Auth.Login" .errInvalidCredentials)
    ∧ (Auth.Login a' v' nt' em' p' aid').err
      = (Auth.Login a v nt em p aid).err := by
  constructor
  · simp [Auth.Login, h1, h2]
  · simp [Auth.Login, h1, h2, h3, h4]

/-- C1 witness: `demoAuth` at an unregistered email and at the registered
email with a wrong password. -/
theorem login_unknown_email_and_wrong_password_same_error_witness :
    (demoAuth.userByEmail "nobody@x.com"
        = .error (.wrapped "storage.mongodb.User" .errStorageUserNotFound)
      ∧ (Err.wrapped "storage.mongodb.User" .errStorageUserNotFound).is
          .errStorageUserNotFound = true
      ∧ demoAuth.userByEmail "a@x.com" = .ok demoUser
      ∧ demoVerify demoUser.passHash "wrong" = false)
    ∧ ((Auth.Login demoAuth demoVerify demoNewToken "nobody@x.com" "pw" 42).err
        = some (.wrapped "Auth.Login" .errInvalidCredentials)
      ∧ (Auth.Login demoAuth demoVerify demoNewToken "a@x.com" "wrong" 42).err
        = (Auth.Login demoAuth demoVerify demoNewToken "nobody@x.com" "pw" 42).err) :=
  ⟨⟨rfl, by decide, rfl, by decide⟩,
    login_unknown_email_and_wrong_password_same_error
      demoAuth demoAuth demoVerify demoVerify demoNewToken demoNewToken
      "nobody@x.com" "pw" "a@x.com" "wrong" 42 42
      (.wrapped "storage.mongodb.User" .errStorageUserNotFound) demoUser
      rfl (by decide) rfl (by decide)⟩

/-- C2 counterexample: the engine itself does not treat appID 0 as
invalid-app and does not reject before a store lookup — called directly
with appID 0 it consults the user store and, with app 0 registered,
succeeds and issues a token. -/
theorem login_engine_accepts_zero_appID :
    (Auth.Login demoAuth demoVerify demoNewToken "a@x.com" "secret1" 0).err = none
    ∧ (Auth.Login demoAuth demoVerify demoNewToken "a@x.com" "secret1" 0).token = "tok"
    ∧ Effect.readUserByEmail "a@x.com"
        ∈ (Auth.Login demoAuth demoVerify demoNewToken "a@x.com" "secret1" 0).trace := by
  decide

/-- C2 amended: the transport adapter's Login rejects appID 0 with an
invalid-argument error before invoking the engine, so no store lookup is
performed; the engine performs no empty-appID check of its own. -/
theorem transport_login_rejects_zero_appID
    (a : Auth) (v : List Nat → String → Bool)
    (nt : User → App → Nat → Except Err String) (em p : String)
    (h1 : em ≠ "") (h2 : p ≠ "") :
    serverAPI.Login a v nt em p 0
      = (.error ⟨.invalidArgument, "app_id is required"⟩, []) := by
  simp [serverAPI.Login, h1, h2, emptyValue]

/-- C2 amended witness: concrete nonempty email and password. -/
theorem transport_login_rejects_zero_appID_witness :
    ("a@x.com" ≠ "" ∧ "secret1" ≠ "")
    ∧ serverAPI.Login demoAuth demoVerify demoNewToken "a@x.com" "secret1" 0
      = (.error ⟨.invalidArgument, "app_id is required"⟩, []) :=
  ⟨⟨by decide, by decide⟩,
    transport_login_rejects_zero_appID demoAuth demoVerify demoNewToken
      "a@x.com" "secret1" (by decide) (by decide)⟩

/-- C3: Login resolves the user, then verifies the password, then resolves
the app; with an existing email and a mismatching password it fails with
`InvalidCredentials` for every appID, and the trace shows the app registry
was never consulted; on the all-success path the trace shows the three
steps in that order. -/
theorem login_step_order_and_password_mismatch
    (a : Auth) (v : List Nat → String → Bool)
    (nt : User → App → Nat → Except Err String)
    (em p : String) (aid : Int) (u : User)
    (h1 : a.userByEmail em = .ok u) :
    (v u.passHash p = false →
      Auth.Login a v nt em p aid =
        ⟨"", some (.wrapped "Auth.Login" .errInvalidCredentials),
         [.readUserByEmail em, .verifyPassword u.passHash p]⟩)
    ∧ (∀ ap tok, v u.passHash p = true → a.appProvider aid = .ok ap →
        nt u ap a.tokenTTL = .ok tok →
        Auth.Login a v nt em p aid =
          ⟨tok, none,
           [.readUserByEmail em, .verifyPassword u.passHash p,
            .readApp aid, .issueToken u ap]⟩) := by
  constructor
  · intro hv
    simp [Auth.Login, h1, hv]
  · intro ap tok hv hap hnt
    simp [Auth.Login, h1, hv, hap, hnt]

/-- C3 witness: registered email with a wrong password (appID 7 is not
even in the registry), and the full success path at appID 42. -/
theorem login_step_order_and_password_mismatch_witness :
    (demoAuth.userByEmail "a@x.com" = .ok demoUser
      ∧ demoVerify demoUser.passHash "wrong" = false
      ∧ demoVerify demoUser.passHash "secret1" = true)
    ∧ Auth.Login demoAuth demoVerify demoNewToken "a@x.com" "wrong" 7 =
        ⟨"", some (.wrapped "Auth.Login" .errInvalidCredentials),
         [.readUserByEmail "a@x.com", .verifyPassword demoUser.passHash "wrong"]⟩
    ∧ Auth.Login demoAuth demoVerify demoNewToken "a@x.com" "secret1" 42 =
        ⟨"tok", none,
         [.readUserByEmail "a@x.com", .verifyPassword demoUser.passHash "secret1",
          .readApp 42, .issueToken demoUser demoApp42]⟩ :=
  ⟨⟨rfl, by decide, by decide⟩,
    (login_step_order_and_password_mismatch demoAuth demoVerify demoNewToken
      "a@x.com" "wrong" 7 demoUser rfl).1 (by decide),
    (login_step_order_and_password_mismatch demoAuth demoVerify demoNewToken
      "a@x.com" "secret1" 42 demoUser rfl).2 demoApp42 "tok"
      (by decide) rfl rfl⟩

/-- C4: with valid credentials and an app registry failure whose sentinel
is `storage.ErrAppNotFound`, Login returns that error wrapped — an error
that still matches `AppNotFound` under `errors.Is` and never matches
`InvalidCredentials`. -/
theorem login_unknown_app_surfaced_as_appNotFound
    (a : Auth) (v : List Nat → String → Bool)
    (nt : User → App → Nat → Except Err String)
    (em p : String) (aid : Int) (u : User) (e : Err)
    (h1 : a.userByEmail em = .ok u)
    (h2 : v u.passHash p = true)
    (h3 : a.appProvider aid = .error e)
    (h4 : e.is .errStorageAppNotFound = true) :
    (Auth.Login a v nt em p aid).err = some (.wrapped "Auth.Login" e)
    ∧ (Err.wrapped "Auth.Login" e).is .errStorageAppNotFound = true
    ∧ (Err.wrapped "Auth.Login" e).is .errInvalidCredentials = false := by
  refine ⟨by simp [Auth.Login, h1, h2, h3], ?_, ?_⟩
  · simp [Err.is, h4]
  · simp [Err.is]
    exact err_is_appNotFound_not_invalidCredentials e h4

/-- C4 witness: valid credentials for `demoUser` with appID 7, which the
registry rejects with a wrapped `ErrAppNotFound`. -/
theorem login_unknown_app_surfaced_as_appNotFound_witness :
    (demoAuth.userByEmail "a@x.com" = .ok demoUser
      ∧ demoVerify demoUser.passHash "secret1" = true
      ∧ demoAuth.appProvider 7
          = .error (.wrapped "storage.mongodb.App" .errStorageAppNotFound)
      ∧ (Err.wrapped "storage.mongodb.App" .errStorageAppNotFound).is
          .errStorageAppNotFound = true)
    ∧ ((Auth.Login demoAuth demoVerify demoNewToken "a@x.com" "secret1" 7).err
        = some (.wrapped "Auth.Login"
            (.wrapped "storage.mongodb.App" .errStorageAppNotFound))
      ∧ (Err.wrapped "Auth.Login"
          (.wrapped "storage.mongodb.App" .errStorageAppNotFound)).is
          .errStorageAppNotFound = true
      ∧ (Err.wrapped "Auth.Login"
          (.wrapped "storage.mongodb.App" .errStorageAppNotFound)).is
          .errInvalidCredentials = false) :=
  ⟨⟨rfl, by decide, rfl, by decide⟩,
    login_unknown_app_surfaced_as_appNotFound demoAuth demoVerify demoNewToken
      "a@x.com" "secret1" 7 demoUser
      (.wrapped "storage.mongodb.App" .errStorageAppNotFound)
      rfl (by decide) rfl (by decide)⟩

/-- C5: once the password is hashed, a store save failing with the
`storage.ErrUserExists` sentinel makes RegisterNewUser fail with the
`ErrUserExists` kind, and a successful save makes it return exactly the
identifier the store assigned. -/
theorem register_userExists_and_id_propagation
    (a : Auth) (genHash : String → Except Err (List Nat))
    (em p : String) (hs : List Nat)
    (hg : genHash p = .ok hs) :
    (∀ e, a.saveUser em hs = .error e → e.is .errStorageUserExists = true →
      Auth.RegisterNewUser a genHash em p =
        ⟨NilObjectID, some (.wrapped "auth.RegisterNewUser" .errUserExists),
         [.writeSaveUser em hs]⟩)
    ∧ (∀ id, a.saveUser em hs = .ok id →
        Auth.RegisterNewUser a genHash em p =
          ⟨id, none, [.writeSaveUser em hs]⟩) := by
  constructor
  · intro e he hex
    simp [Auth.RegisterNewUser, hg, he, hex]
  · intro id hid
    simp [Auth.RegisterNewUser, hg, hid]

/-- C5 witness: registering the already-present email `a@x.com` yields a
`UserExists` failure; registering `b@x.com` propagates the store's new
identifier. -/
theorem register_userExists_and_id_propagation_witness :
    (demoGenHash "pw" = .ok [7, 7, 7]
      ∧ demoAuth.saveUser "a@x.com" [7, 7, 7]
          = .error (.wrapped "storage.mongodb.SaveUser" .errStorageUserExists)
      ∧ (Err.wrapped "storage.mongodb.SaveUser" .errStorageUserExists).is
          .errStorageUserExists = true
      ∧ demoAuth.saveUser "b@x.com" [7, 7, 7]
          = .ok [0, 0, 0, 0, 0, 0, 0, 0, 0, 0, 0, 1])
    ∧ Auth.RegisterNewUser demoAuth demoGenHash "a@x.com" "pw" =
        ⟨NilObjectID, some (.wrapped "auth.RegisterNewUser" .errUserExists),
         [.writeSaveUser "a@x.com" [7, 7, 7]]⟩
    ∧ Auth.RegisterNewUser demoAuth demoGenHash "b@x.com" "pw" =
        ⟨[0, 0, 0, 0, 0, 0, 0, 0, 0, 0, 0, 1], none,
         [.writeSaveUser "b@x.com" [7, 7, 7]]⟩ :=
  ⟨⟨rfl, rfl, by decide, rfl⟩,
    (register_userExists_and_id_propagation demoAuth demoGenHash
      "a@x.com" "pw" [7, 7, 7] rfl).1
      (.wrapped "storage.mongodb.SaveUser" .errStorageUserExists)
      rfl (by decide),
    (register_userExists_and_id_propagation demoAuth demoGenHash
      "b@x.com" "pw" [7, 7, 7] rfl).2
      [0, 0, 0, 0, 0, 0, 0, 0, 0, 0, 0, 1] rfl⟩

/-- C6: every store failure in IsAdmin — not-found included — is
classified as the wrapped `ErrInvalidAppID` kind, with the result flag
forced to false. -/
theorem isAdmin_store_failure_classified_invalidApp
    (a : Auth) (uid : ObjectID) (e : Err)
    (h : a.isAdminStore uid = .error e) :
    Auth.IsAdmin a uid =
      ⟨false, some (.wrapped "auth.IsAdmin" .errInvalidAppID),
       [.readIsAdmin uid]⟩ := by
  simp [Auth.IsAdmin, h]

/-- C6 witness: an ObjectID not present in `demoAuth`'s store. -/
theorem isAdmin_store_failure_classified_invalidApp_witness :
    demoAuth.isAdminStore NilObjectID
      = .error (.wrapped "storage.mongodb.IsAdmin" .errStorageUserNotFound)
    ∧ Auth.IsAdmin demoAuth NilObjectID =
        ⟨false, some (.wrapped "auth.IsAdmin" .errInvalidAppID),
         [.readIsAdmin NilObjectID]⟩ :=
  ⟨rfl,
    isAdmin_store_failure_classified_invalidApp demoAuth NilObjectID
      (.wrapped "storage.mongodb.IsAdmin" .errStorageUserNotFound) rfl⟩

/-- C7: in every Login execution the token issuer is invoked only with an
app the registry successfully resolved, and when app resolution fails no
token is produced and the issuer is never invoked. -/
theorem login_token_only_after_app_resolved
    (a : Auth) (v : List Nat → String → Bool)
    (nt : User → App → Nat → Except Err String)
    (em p : String) (aid : Int) :
    (∀ u ap, Effect.issueToken u ap ∈ (Auth.Login a v nt em p aid).trace →
      a.appProvider aid = .ok ap)
    ∧ (∀ e, a.appProvider aid = .error e →
        (Auth.Login a v nt em p aid).token = ""
        ∧ ∀ u ap, Effect.issueToken u ap ∉ (Auth.Login a v nt em p aid).trace) := by
  cases hu : a.userByEmail em with
  | error e =>
    by_cases he : e.is .errStorageUserNotFound <;>
      simp [Auth.Login, hu, he]
  | ok user =>
    by_cases hv : v user.passHash p
    · cases hap : a.appProvider aid with
      | error e => simp [Auth.Login, hu, hv, hap]
      | ok ap =>
        cases hnt : nt user ap a.tokenTTL with
        | error e2 => simp [Auth.Login, hu, hv, hap, hnt]
        | ok tok => simp [Auth.Login, hu, hv, hap, hnt]
    · simp [Auth.Login, hu, hv]

/-- C7 witness: the issuer runs at appID 42 only with the resolved
`demoApp42`; at the unregistered appID 7 no token is produced and the
issuer never runs. -/
theorem login_token_only_after_app_resolved_witness :
    (Effect.issueToken demoUser demoApp42
        ∈ (Auth.Login demoAuth demoVerify demoNewToken "a@x.com" "secret1" 42).trace
      ∧ demoAuth.appProvider 42 = .ok demoApp42)
    ∧ ((Auth.Login demoAuth demoVerify demoNewToken "a@x.com" "secret1" 7).token = ""
      ∧ Effect.issueToken demoUser demoApp42
          ∉ (Auth.Login demoAuth demoVerify demoNewToken "a@x.com" "secret1" 7).trace) :=
  ⟨⟨by decide,
    (login_token_only_after_app_resolved demoAuth demoVerify demoNewToken
      "a@x.com" "secret1" 42).1 demoUser demoApp42 (by decide)⟩,
   ⟨((login_token_only_after_app_resolved demoAuth demoVerify demoNewToken
      "a@x.com" "secret1" 7).2
      (.wrapped "storage.mongodb.App" .errStorageAppNotFound) rfl).1,
    ((login_token_only_after_app_resolved demoAuth demoVerify demoNewToken
      "a@x.com" "secret1" 7).2
      (.wrapped "storage.mongodb.App" .errStorageAppNotFound) rfl).2
      demoUser demoApp42⟩⟩

/-- C8: every collaborator call Login performs is a read or a pure
computation — no trace of any Login execution contains a store write. -/
theorem login_performs_no_writes
    (a : Auth) (v : List Nat → String → Bool)
    (nt : User → App → Nat → Except Err String)
    (em p : String) (aid : Int) (eff : Effect)
    (h : eff ∈ (Auth.Login a v nt em p aid).trace) :
    eff.isWrite = false := by
  cases hu : a.userByEmail em with
  | error e =>
    by_cases he : e.is .errStorageUserNotFound <;>
    · simp [Auth.Login, hu, he] at h
      subst h
      rfl
  | ok user =>
    by_cases hv : v user.passHash p
    · cases hap : a.appProvider aid with
      | error e =>
        simp [Auth.Login, hu, hv, hap] at h
        rcases h with h | h | h <;> subst h <;> rfl
      | ok ap =>
        cases hnt : nt user ap a.tokenTTL with
        | error e2 =>
          simp [Auth.Login, hu, hv, hap, hnt] at h
          rcases h with h | h | h | h <;> subst h <;> rfl
        | ok tok =>
          simp [Auth.Login, hu, hv, hap, hnt] at h
          rcases h with h | h | h | h <;> subst h <;> rfl
    · simp [Auth.Login, hu, hv] at h
      rcases h with h | h <;> subst h <;> rfl

/-- C8 witness: a successful Login's trace, checked at its first effect. -/
theorem login_performs_no_writes_witness :
    Effect.readUserByEmail "a@x.com"
      ∈ (Auth.Login demoAuth demoVerify demoNewToken "a@x.com" "secret1" 42).trace
    ∧ (Effect.readUserByEmail "a@x.com").isWrite = false :=
  ⟨by decide,
    login_performs_no_writes demoAuth demoVerify demoNewToken
      "a@x.com" "secret1" 42 (Effect.readUserByEmail "a@x.com") (by decide)⟩

/-- C9: whenever RegisterNewUser returns an error — hashing failure,
UserExists, or any other store failure — the returned identifier is the
nil ObjectID sentinel. -/
theorem register_error_returns_nil_objectID
    (a : Auth) (genHash : String → Except Err (List Nat)) (em p : String)
    (h : (Auth.RegisterNewUser a genHash em p).err ≠ none) :
    (Auth.RegisterNewUser a genHash em p).id = NilObjectID := by
  cases hg : genHash p with
  | error e => simp [Auth.RegisterNewUser, hg]
  | ok hs =>
    cases hsave : a.saveUser em hs with
    | error e =>
      by_cases hex : e.is .errStorageUserExists <;>
        simp [Auth.RegisterNewUser, hg, hsave, hex]
    | ok id =>
      exact absurd (by simp [Auth.RegisterNewUser, hg, hsave]) h

/-- C9 witness: registering the duplicate email `a@x.com` errors and
returns the nil ObjectID. -/
theorem register_error_returns_nil_objectID_witness :
    (Auth.RegisterNewUser demoAuth demoGenHash "a@x.com" "pw").err ≠ none
    ∧ (Auth.RegisterNewUser demoAuth demoGenHash "a@x.com" "pw").id
        = NilObjectID :=
  ⟨by decide,
    register_error_returns_nil_objectID demoAuth demoGenHash "a@x.com" "pw"
      (by decide)⟩

/-- C10: the transport adapter's IsAdmin rejects a userID equal to the nil
ObjectID's hex encoding, or not a valid hex-encoded ObjectID, with an
invalid-argument status, and with an empty trace — the engine (whose every
run performs a store read) is never invoked. -/
theorem transport_isAdmin_rejects_invalid_userID
    (a : Auth) (userId : String)
    (h : userId = ObjectID.Hex NilObjectID ∨ ObjectIDFromHex userId = none) :
    ((serverAPI.IsAdmin a userId).1
        = .error ⟨.invalidArgument, "user_id is required"⟩
      ∨ (serverAPI.IsAdmin a userId).1
        = .error ⟨.invalidArgument, "invalid user_id"⟩)
    ∧ (serverAPI.IsAdmin a userId).2 = [] := by
  by_cases hnil : userId = ObjectID.Hex NilObjectID
  · exact ⟨Or.inl (by simp [serverAPI.IsAdmin, hnil]),
      by simp [serverAPI.IsAdmin, hnil]⟩
  · rcases h with h | h
    · exact absurd h hnil
    · exact ⟨Or.inr (by simp [serverAPI.IsAdmin, hnil, h]),
        by simp [serverAPI.IsAdmin, hnil, h]⟩

/-- C10 witness: the string `zz` is not a valid hex ObjectID and is
rejected without any engine effect. -/
theorem transport_isAdmin_rejects_invalid_userID_witness :
    ObjectIDFromHex "zz" = none
    ∧ (((serverAPI.IsAdmin demoAuth "zz").1
          = .error ⟨.invalidArgument, "user_id is required"⟩
        ∨ (serverAPI.IsAdmin demoAuth "zz").1
          = .error ⟨.invalidArgument, "invalid user_id"⟩)
      ∧ (serverAPI.IsAdmin demoAuth "zz").2 = []) :=
  ⟨rfl, transport_isAdmin_rejects_invalid_userID demoAuth "zz" (Or.inr rfl)⟩
